import Mathlib

/-!  Verification development for the Thesis OS monitoring & valuation engine.

The repository snapshot contains the frontend TypeScript sources
(`src/frontend/...`, `src/unnamed/part_000`..`part_003`) and the architectural
plan (`src/thesis_os_revised_plan.md`); the backend engine modules named in the
README (`app/quant.py`, `app/changes.py`, ...) are not part of the snapshot.
Definitions below that embed the missing engine code are marked
`Modelled from the spec:`; everything else is translated directly from the
TypeScript sources or from the code blocks of the plan document.

Numbers are modelled as exact rationals (`ℚ`), idealising the engine's
floating-point arithmetic.  KPI period histories are lists with the most
recent period first.  -/

set_option maxHeartbeats 1000000

namespace ThesisOS

/-- Iterated multiplication on rationals, written structurally so that proofs
can unfold powers step by step. -/
def ratPow (q : ℚ) : Nat → ℚ
  | 0 => 1
  | n + 1 => ratPow q n * q

/-- Absolute value on rationals, kept as a plain conditional so that numeric
tactics can evaluate it. -/
def ratAbs (q : ℚ) : ℚ := if q < 0 then -q else q

/-- Modelled from the spec: present value of the growing cash-flow stream,
`Σ_{t=1..n} FCF·(1+g)^t / (1+r)^t` (spec §4.2; the solver module
`app/quant.py` is not in the snapshot). -/
def pvCashflows (fcf r g : ℚ) : Nat → ℚ
  | 0 => 0
  | t + 1 => pvCashflows fcf r g t + fcf * ratPow (1 + g) (t + 1) / ratPow (1 + r) (t + 1)

/-- Modelled from the spec: the forward pricing formula — present value of the
cash-flow stream over the horizon plus the discounted Gordon terminal value
`FCF·(1+g)^n·(1+g_t) / (r−g_t)` (spec §4.2). -/
def forwardPrice (fcf r gt : ℚ) (n : Nat) (g : ℚ) : ℚ :=
  pvCashflows fcf r g n + fcf * ratPow (1 + g) n * (1 + gt) / (r - gt) / ratPow (1 + r) n

/-- Modelled from the spec: one bracketed bisection loop (spec §4.2,
"bracketed root-finding (bisection)").  The bracket `(lo, hi)` is narrowed
`n` times; the solver searches for `g` with `f g = target`. -/
def bisect (f : ℚ → ℚ) (target : ℚ) : Nat → ℚ × ℚ → ℚ × ℚ
  | 0, b => b
  | k + 1, (lo, hi) =>
      let mid := (lo + hi) / 2
      if target ≤ f mid then bisect f target k (lo, mid)
      else bisect f target k (mid, hi)

/-- Midpoint of the bracket left after `n` bisection steps — the value the
solver reports. -/
def runBisection (f : ℚ → ℚ) (target lo hi : ℚ) (n : Nat) : ℚ :=
  ((bisect f target n (lo, hi)).1 + (bisect f target n (lo, hi)).2) / 2

/-- Modelled from the spec: the reverse valuation solver (spec §4.2).  Inputs
are enterprise value `ev`, base cash flow `fcf`, discount rate `r`, terminal
growth `gt`, horizon `n`, the search bracket `gMin..gMax`, the bisection
iteration budget `iters` and the relative convergence tolerance `tol`.
Failure policy follows the spec's taxonomy: non-positive base cash flow,
invalid discount/terminal-growth relationship, bracket without a sign change,
and non-convergence are reported as documented failures, never as numbers. -/
def solveImpliedGrowth (ev fcf r gt : ℚ) (n : Nat) (gMin gMax : ℚ) (iters : Nat)
    (tol : ℚ) : Except String ℚ :=
  if fcf ≤ 0 then Except.error "undefined: non-positive base cash flow"
  else if r ≤ gt then Except.error "invalid discount/terminal-growth relationship"
  else if gMin ≤ gMax ∧ forwardPrice fcf r gt n gMin ≤ ev ∧ ev ≤ forwardPrice fcf r gt n gMax then
    if ratAbs (forwardPrice fcf r gt n (runBisection (forwardPrice fcf r gt n) ev gMin gMax iters) - ev)
        ≤ tol * ev then
      Except.ok (runBisection (forwardPrice fcf r gt n) ev gMin gMax iters)
    else Except.error "solver-nonconvergent"
  else Except.error "out of bracket"

/-- Unfolding lemma for one bisection step, stated with an explicit successor
hypothesis so that it can be applied at numeric literals. -/
theorem bisect_step (f : ℚ → ℚ) (t : ℚ) (k m : Nat) (h : m = k + 1) (lo hi : ℚ) :
    bisect f t m (lo, hi) =
      if t ≤ f ((lo + hi) / 2) then bisect f t k (lo, (lo + hi) / 2)
      else bisect f t k ((lo + hi) / 2, hi) := by
  subst h; rfl

/-- The bisection bracket stays inside the initial bracket and stays ordered. -/
theorem bisect_le (f : ℚ → ℚ) (t : ℚ) :
    ∀ (n : Nat) (lo hi : ℚ), lo ≤ hi →
      lo ≤ (bisect f t n (lo, hi)).1 ∧
      (bisect f t n (lo, hi)).1 ≤ (bisect f t n (lo, hi)).2 ∧
      (bisect f t n (lo, hi)).2 ≤ hi
  | 0, lo, hi, h => ⟨le_refl lo, h, le_refl hi⟩
  | n + 1, lo, hi, h => by
      have hm1 : lo ≤ (lo + hi) / 2 := by linarith
      have hm2 : (lo + hi) / 2 ≤ hi := by linarith
      rw [bisect_step f t n (n + 1) rfl]
      split
      · rcases bisect_le f t n lo ((lo + hi) / 2) hm1 with ⟨a, b, c⟩
        exact ⟨a, b, le_trans c hm2⟩
      · rcases bisect_le f t n ((lo + hi) / 2) hi hm2 with ⟨a, b, c⟩
        exact ⟨le_trans hm1 a, b, c⟩

/-- Bisection brackets for two targets from the same starting bracket either
coincide or are completely separated, with the smaller target's bracket to the
left.  This holds for any price function. -/
theorem bisect_mono (f : ℚ → ℚ) (t₁ t₂ : ℚ) (ht : t₁ ≤ t₂) :
    ∀ (n : Nat) (lo hi : ℚ), lo ≤ hi →
      bisect f t₁ n (lo, hi) = bisect f t₂ n (lo, hi) ∨
      (bisect f t₁ n (lo, hi)).2 ≤ (bisect f t₂ n (lo, hi)).1
  | 0, lo, hi, _ => Or.inl rfl
  | n + 1, lo, hi, h => by
      have hm1 : lo ≤ (lo + hi) / 2 := by linarith
      have hm2 : (lo + hi) / 2 ≤ hi := by linarith
      rw [bisect_step f t₁ n (n + 1) rfl, bisect_step f t₂ n (n + 1) rfl]
      by_cases h1 : t₁ ≤ f ((lo + hi) / 2) <;> by_cases h2 : t₂ ≤ f ((lo + hi) / 2)
      · rw [if_pos h1, if_pos h2]
        exact bisect_mono f t₁ t₂ ht n lo ((lo + hi) / 2) hm1
      · rw [if_pos h1, if_neg h2]
        refine Or.inr (le_trans (bisect_le f t₁ n lo ((lo + hi) / 2) hm1).2.2
          (bisect_le f t₂ n ((lo + hi) / 2) hi hm2).1)
      · exact absurd (le_trans ht h2) h1
      · rw [if_neg h1, if_neg h2]
        exact bisect_mono f t₁ t₂ ht n ((lo + hi) / 2) hi hm2

/-- The reported bisection midpoint is monotone in the target value. -/
theorem runBisection_mono (f : ℚ → ℚ) (t₁ t₂ lo hi : ℚ) (ht : t₁ ≤ t₂)
    (hlh : lo ≤ hi) (n : Nat) :
    runBisection f t₁ lo hi n ≤ runBisection f t₂ lo hi n := by
  unfold runBisection
  rcases bisect_mono f t₁ t₂ ht n lo hi hlh with h | h
  · rw [h]
  · have b1 := bisect_le f t₁ n lo hi hlh
    have b2 := bisect_le f t₂ n lo hi hlh
    linarith [b1.2.1, b2.2.1]

/-- Concrete bisection run for the spec scenario EV=300, FCF=20, r=0.08,
g_t=0.02, N=10 over the default bracket -50%..+100% with 16 iterations. -/
theorem scenario300_bisect :
    bisect (forwardPrice 20 (2/25) (1/50) 10) 300 16 ((-1/2 : ℚ), 1) =
      ((479/131072 : ℚ), (241/65536 : ℚ)) := by
  have s0 : bisect (forwardPrice 20 (2/25) (1/50) 10) 300 16 ((-1/2 : ℚ), 1) =
      bisect (forwardPrice 20 (2/25) (1/50) 10) 300 15 ((-1/2 : ℚ), (1/4 : ℚ)) := by
    rw [bisect_step _ _ 15 _ rfl, if_pos (by norm_num [forwardPrice, pvCashflows, ratPow])]
    norm_num
  have s1 : bisect (forwardPrice 20 (2/25) (1/50) 10) 300 15 ((-1/2 : ℚ), (1/4 : ℚ)) =
      bisect (forwardPrice 20 (2/25) (1/50) 10) 300 14 ((-1/8 : ℚ), (1/4 : ℚ)) := by
    rw [bisect_step _ _ 14 _ rfl, if_neg (by norm_num [forwardPrice, pvCashflows, ratPow])]
    norm_num
  have s2 : bisect (forwardPrice 20 (2/25) (1/50) 10) 300 14 ((-1/8 : ℚ), (1/4 : ℚ)) =
      bisect (forwardPrice 20 (2/25) (1/50) 10) 300 13 ((-1/8 : ℚ), (1/16 : ℚ)) := by
    rw [bisect_step _ _ 13 _ rfl, if_pos (by norm_num [forwardPrice, pvCashflows, ratPow])]
    norm_num
  have s3 : bisect (forwardPrice 20 (2/25) (1/50) 10) 300 13 ((-1/8 : ℚ), (1/16 : ℚ)) =
      bisect (forwardPrice 20 (2/25) (1/50) 10) 300 12 ((-1/32 : ℚ), (1/16 : ℚ)) := by
    rw [bisect_step _ _ 12 _ rfl, if_neg (by norm_num [forwardPrice, pvCashflows, ratPow])]
    norm_num
  have s4 : bisect (forwardPrice 20 (2/25) (1/50) 10) 300 12 ((-1/32 : ℚ), (1/16 : ℚ)) =
      bisect (forwardPrice 20 (2/25) (1/50) 10) 300 11 ((-1/32 : ℚ), (1/64 : ℚ)) := by
    rw [bisect_step _ _ 11 _ rfl, if_pos (by norm_num [forwardPrice, pvCashflows, ratPow])]
    norm_num
  have s5 : bisect (forwardPrice 20 (2/25) (1/50) 10) 300 11 ((-1/32 : ℚ), (1/64 : ℚ)) =
      bisect (forwardPrice 20 (2/25) (1/50) 10) 300 10 ((-1/128 : ℚ), (1/64 : ℚ)) := by
    rw [bisect_step _ _ 10 _ rfl, if_neg (by norm_num [forwardPrice, pvCashflows, ratPow])]
    norm_num
  have s6 : bisect (forwardPrice 20 (2/25) (1/50) 10) 300 10 ((-1/128 : ℚ), (1/64 : ℚ)) =
      bisect (forwardPrice 20 (2/25) (1/50) 10) 300 9 ((-1/128 : ℚ), (1/256 : ℚ)) := by
    rw [bisect_step _ _ 9 _ rfl, if_pos (by norm_num [forwardPrice, pvCashflows, ratPow])]
    norm_num
  have s7 : bisect (forwardPrice 20 (2/25) (1/50) 10) 300 9 ((-1/128 : ℚ), (1/256 : ℚ)) =
      bisect (forwardPrice 20 (2/25) (1/50) 10) 300 8 ((-1/512 : ℚ), (1/256 : ℚ)) := by
    rw [bisect_step _ _ 8 _ rfl, if_neg (by norm_num [forwardPrice, pvCashflows, ratPow])]
    norm_num
  have s8 : bisect (forwardPrice 20 (2/25) (1/50) 10) 300 8 ((-1/512 : ℚ), (1/256 : ℚ)) =
      bisect (forwardPrice 20 (2/25) (1/50) 10) 300 7 ((1/1024 : ℚ), (1/256 : ℚ)) := by
    rw [bisect_step _ _ 7 _ rfl, if_neg (by norm_num [forwardPrice, pvCashflows, ratPow])]
    norm_num
  have s9 : bisect (forwardPrice 20 (2/25) (1/50) 10) 300 7 ((1/1024 : ℚ), (1/256 : ℚ)) =
      bisect (forwardPrice 20 (2/25) (1/50) 10) 300 6 ((5/2048 : ℚ), (1/256 : ℚ)) := by
    rw [bisect_step _ _ 6 _ rfl, if_neg (by norm_num [forwardPrice, pvCashflows, ratPow])]
    norm_num
  have s10 : bisect (forwardPrice 20 (2/25) (1/50) 10) 300 6 ((5/2048 : ℚ), (1/256 : ℚ)) =
      bisect (forwardPrice 20 (2/25) (1/50) 10) 300 5 ((13/4096 : ℚ), (1/256 : ℚ)) := by
    rw [bisect_step _ _ 5 _ rfl, if_neg (by norm_num [forwardPrice, pvCashflows, ratPow])]
    norm_num
  have s11 : bisect (forwardPrice 20 (2/25) (1/50) 10) 300 5 ((13/4096 : ℚ), (1/256 : ℚ)) =
      bisect (forwardPrice 20 (2/25) (1/50) 10) 300 4 ((29/8192 : ℚ), (1/256 : ℚ)) := by
    rw [bisect_step _ _ 4 _ rfl, if_neg (by norm_num [forwardPrice, pvCashflows, ratPow])]
    norm_num
  have s12 : bisect (forwardPrice 20 (2/25) (1/50) 10) 300 4 ((29/8192 : ℚ), (1/256 : ℚ)) =
      bisect (forwardPrice 20 (2/25) (1/50) 10) 300 3 ((29/8192 : ℚ), (61/16384 : ℚ)) := by
    rw [bisect_step _ _ 3 _ rfl, if_pos (by norm_num [forwardPrice, pvCashflows, ratPow])]
    norm_num
  have s13 : bisect (forwardPrice 20 (2/25) (1/50) 10) 300 3 ((29/8192 : ℚ), (61/16384 : ℚ)) =
      bisect (forwardPrice 20 (2/25) (1/50) 10) 300 2 ((119/32768 : ℚ), (61/16384 : ℚ)) := by
    rw [bisect_step _ _ 2 _ rfl, if_neg (by norm_num [forwardPrice, pvCashflows, ratPow])]
    norm_num
  have s14 : bisect (forwardPrice 20 (2/25) (1/50) 10) 300 2 ((119/32768 : ℚ), (61/16384 : ℚ)) =
      bisect (forwardPrice 20 (2/25) (1/50) 10) 300 1 ((119/32768 : ℚ), (241/65536 : ℚ)) := by
    rw [bisect_step _ _ 1 _ rfl, if_pos (by norm_num [forwardPrice, pvCashflows, ratPow])]
    norm_num
  have s15 : bisect (forwardPrice 20 (2/25) (1/50) 10) 300 1 ((119/32768 : ℚ), (241/65536 : ℚ)) =
      bisect (forwardPrice 20 (2/25) (1/50) 10) 300 0 ((479/131072 : ℚ), (241/65536 : ℚ)) := by
    rw [bisect_step _ _ 0 _ rfl, if_neg (by norm_num [forwardPrice, pvCashflows, ratPow])]
    norm_num
  rw [s0, s1, s2, s3, s4, s5, s6, s7, s8, s9, s10, s11, s12, s13, s14, s15]
  rfl

/-- Concrete bisection run for the same inputs with EV=320 (used to witness
monotonicity in EV). -/
theorem scenario320_bisect :
    bisect (forwardPrice 20 (2/25) (1/50) 10) 320 16 ((-1/2 : ℚ), 1) =
      ((793/65536 : ℚ), (1589/131072 : ℚ)) := by
  have s0 : bisect (forwardPrice 20 (2/25) (1/50) 10) 320 16 ((-1/2 : ℚ), 1) =
      bisect (forwardPrice 20 (2/25) (1/50) 10) 320 15 ((-1/2 : ℚ), (1/4 : ℚ)) := by
    rw [bisect_step _ _ 15 _ rfl, if_pos (by norm_num [forwardPrice, pvCashflows, ratPow])]
    norm_num
  have s1 : bisect (forwardPrice 20 (2/25) (1/50) 10) 320 15 ((-1/2 : ℚ), (1/4 : ℚ)) =
      bisect (forwardPrice 20 (2/25) (1/50) 10) 320 14 ((-1/8 : ℚ), (1/4 : ℚ)) := by
    rw [bisect_step _ _ 14 _ rfl, if_neg (by norm_num [forwardPrice, pvCashflows, ratPow])]
    norm_num
  have s2 : bisect (forwardPrice 20 (2/25) (1/50) 10) 320 14 ((-1/8 : ℚ), (1/4 : ℚ)) =
      bisect (forwardPrice 20 (2/25) (1/50) 10) 320 13 ((-1/8 : ℚ), (1/16 : ℚ)) := by
    rw [bisect_step _ _ 13 _ rfl, if_pos (by norm_num [forwardPrice, pvCashflows, ratPow])]
    norm_num
  have s3 : bisect (forwardPrice 20 (2/25) (1/50) 10) 320 13 ((-1/8 : ℚ), (1/16 : ℚ)) =
      bisect (forwardPrice 20 (2/25) (1/50) 10) 320 12 ((-1/32 : ℚ), (1/16 : ℚ)) := by
    rw [bisect_step _ _ 12 _ rfl, if_neg (by norm_num [forwardPrice, pvCashflows, ratPow])]
    norm_num
  have s4 : bisect (forwardPrice 20 (2/25) (1/50) 10) 320 12 ((-1/32 : ℚ), (1/16 : ℚ)) =
      bisect (forwardPrice 20 (2/25) (1/50) 10) 320 11 ((-1/32 : ℚ), (1/64 : ℚ)) := by
    rw [bisect_step _ _ 11 _ rfl, if_pos (by norm_num [forwardPrice, pvCashflows, ratPow])]
    norm_num
  have s5 : bisect (forwardPrice 20 (2/25) (1/50) 10) 320 11 ((-1/32 : ℚ), (1/64 : ℚ)) =
      bisect (forwardPrice 20 (2/25) (1/50) 10) 320 10 ((-1/128 : ℚ), (1/64 : ℚ)) := by
    rw [bisect_step _ _ 10 _ rfl, if_neg (by norm_num [forwardPrice, pvCashflows, ratPow])]
    norm_num
  have s6 : bisect (forwardPrice 20 (2/25) (1/50) 10) 320 10 ((-1/128 : ℚ), (1/64 : ℚ)) =
      bisect (forwardPrice 20 (2/25) (1/50) 10) 320 9 ((1/256 : ℚ), (1/64 : ℚ)) := by
    rw [bisect_step _ _ 9 _ rfl, if_neg (by norm_num [forwardPrice, pvCashflows, ratPow])]
    norm_num
  have s7 : bisect (forwardPrice 20 (2/25) (1/50) 10) 320 9 ((1/256 : ℚ), (1/64 : ℚ)) =
      bisect (forwardPrice 20 (2/25) (1/50) 10) 320 8 ((5/512 : ℚ), (1/64 : ℚ)) := by
    rw [bisect_step _ _ 8 _ rfl, if_neg (by norm_num [forwardPrice, pvCashflows, ratPow])]
    norm_num
  have s8 : bisect (forwardPrice 20 (2/25) (1/50) 10) 320 8 ((5/512 : ℚ), (1/64 : ℚ)) =
      bisect (forwardPrice 20 (2/25) (1/50) 10) 320 7 ((5/512 : ℚ), (13/1024 : ℚ)) := by
    rw [bisect_step _ _ 7 _ rfl, if_pos (by norm_num [forwardPrice, pvCashflows, ratPow])]
    norm_num
  have s9 : bisect (forwardPrice 20 (2/25) (1/50) 10) 320 7 ((5/512 : ℚ), (13/1024 : ℚ)) =
      bisect (forwardPrice 20 (2/25) (1/50) 10) 320 6 ((23/2048 : ℚ), (13/1024 : ℚ)) := by
    rw [bisect_step _ _ 6 _ rfl, if_neg (by norm_num [forwardPrice, pvCashflows, ratPow])]
    norm_num
  have s10 : bisect (forwardPrice 20 (2/25) (1/50) 10) 320 6 ((23/2048 : ℚ), (13/1024 : ℚ)) =
      bisect (forwardPrice 20 (2/25) (1/50) 10) 320 5 ((49/4096 : ℚ), (13/1024 : ℚ)) := by
    rw [bisect_step _ _ 5 _ rfl, if_neg (by norm_num [forwardPrice, pvCashflows, ratPow])]
    norm_num
  have s11 : bisect (forwardPrice 20 (2/25) (1/50) 10) 320 5 ((49/4096 : ℚ), (13/1024 : ℚ)) =
      bisect (forwardPrice 20 (2/25) (1/50) 10) 320 4 ((49/4096 : ℚ), (101/8192 : ℚ)) := by
    rw [bisect_step _ _ 4 _ rfl, if_pos (by norm_num [forwardPrice, pvCashflows, ratPow])]
    norm_num
  have s12 : bisect (forwardPrice 20 (2/25) (1/50) 10) 320 4 ((49/4096 : ℚ), (101/8192 : ℚ)) =
      bisect (forwardPrice 20 (2/25) (1/50) 10) 320 3 ((49/4096 : ℚ), (199/16384 : ℚ)) := by
    rw [bisect_step _ _ 3 _ rfl, if_pos (by norm_num [forwardPrice, pvCashflows, ratPow])]
    norm_num
  have s13 : bisect (forwardPrice 20 (2/25) (1/50) 10) 320 3 ((49/4096 : ℚ), (199/16384 : ℚ)) =
      bisect (forwardPrice 20 (2/25) (1/50) 10) 320 2 ((395/32768 : ℚ), (199/16384 : ℚ)) := by
    rw [bisect_step _ _ 2 _ rfl, if_neg (by norm_num [forwardPrice, pvCashflows, ratPow])]
    norm_num
  have s14 : bisect (forwardPrice 20 (2/25) (1/50) 10) 320 2 ((395/32768 : ℚ), (199/16384 : ℚ)) =
      bisect (forwardPrice 20 (2/25) (1/50) 10) 320 1 ((793/65536 : ℚ), (199/16384 : ℚ)) := by
    rw [bisect_step _ _ 1 _ rfl, if_neg (by norm_num [forwardPrice, pvCashflows, ratPow])]
    norm_num
  have s15 : bisect (forwardPrice 20 (2/25) (1/50) 10) 320 1 ((793/65536 : ℚ), (199/16384 : ℚ)) =
      bisect (forwardPrice 20 (2/25) (1/50) 10) 320 0 ((793/65536 : ℚ), (1589/131072 : ℚ)) := by
    rw [bisect_step _ _ 0 _ rfl, if_pos (by norm_num [forwardPrice, pvCashflows, ratPow])]
    norm_num
  rw [s0, s1, s2, s3, s4, s5, s6, s7, s8, s9, s10, s11, s12, s13, s14, s15]
  rfl

/-- Solver run for the spec scenario EV=300, FCF=20, r=0.08, g_t=0.02, N=10:
the solver returns g* = 961/262144 (about 0.37% implied growth). -/
theorem scenario300_solve :
    solveImpliedGrowth 300 20 (2/25) (1/50) 10 (-1/2) 1 16 (1/1000) =
      Except.ok (961/262144) := by
  have hrun : runBisection (forwardPrice 20 (2/25) (1/50) 10) 300 (-1/2) 1 16 =
      961/262144 := by
    unfold runBisection
    rw [scenario300_bisect]
    norm_num
  have hbr : ((-1/2 : ℚ)) ≤ 1 ∧ forwardPrice 20 (2/25) (1/50) 10 (-1/2) ≤ 300 ∧
      (300 : ℚ) ≤ forwardPrice 20 (2/25) (1/50) 10 1 :=
    ⟨by norm_num, by norm_num [forwardPrice, pvCashflows, ratPow],
      by norm_num [forwardPrice, pvCashflows, ratPow]⟩
  have hres : ratAbs (forwardPrice 20 (2/25) (1/50) 10 (961/262144) - 300) ≤
      (1/1000 : ℚ) * 300 := by
    norm_num [ratAbs, forwardPrice, pvCashflows, ratPow]
  unfold solveImpliedGrowth
  rw [if_neg (by norm_num : ¬ ((20 : ℚ) ≤ 0)),
    if_neg (by norm_num : ¬ ((2/25 : ℚ) ≤ 1/50)), if_pos hbr, hrun, if_pos hres]

/-- Solver run for the same inputs with EV=320: the solver returns
g* = 3175/262144 (about 1.21% implied growth). -/
theorem scenario320_solve :
    solveImpliedGrowth 320 20 (2/25) (1/50) 10 (-1/2) 1 16 (1/1000) =
      Except.ok (3175/262144) := by
  have hrun : runBisection (forwardPrice 20 (2/25) (1/50) 10) 320 (-1/2) 1 16 =
      3175/262144 := by
    unfold runBisection
    rw [scenario320_bisect]
    norm_num
  have hbr : ((-1/2 : ℚ)) ≤ 1 ∧ forwardPrice 20 (2/25) (1/50) 10 (-1/2) ≤ 320 ∧
      (320 : ℚ) ≤ forwardPrice 20 (2/25) (1/50) 10 1 :=
    ⟨by norm_num, by norm_num [forwardPrice, pvCashflows, ratPow],
      by norm_num [forwardPrice, pvCashflows, ratPow]⟩
  have hres : ratAbs (forwardPrice 20 (2/25) (1/50) 10 (3175/262144) - 320) ≤
      (1/1000 : ℚ) * 320 := by
    norm_num [ratAbs, forwardPrice, pvCashflows, ratPow]
  unfold solveImpliedGrowth
  rw [if_neg (by norm_num : ¬ ((20 : ℚ) ≤ 0)),
    if_neg (by norm_num : ¬ ((2/25 : ℚ) ≤ 1/50)), if_pos hbr, hrun, if_pos hres]

/-- A successful solver run always returns the bisection midpoint, and its
bracket guard guarantees an ordered bracket. -/
theorem solver_ok_value (ev fcf r gt : ℚ) (n : Nat) (gMin gMax : ℚ) (iters : Nat)
    (tol g : ℚ)
    (h : solveImpliedGrowth ev fcf r gt n gMin gMax iters tol = Except.ok g) :
    g = runBisection (forwardPrice fcf r gt n) ev gMin gMax iters ∧ gMin ≤ gMax := by
  unfold solveImpliedGrowth at h
  split at h
  · exact Except.noConfusion h
  split at h
  · exact Except.noConfusion h
  split at h
  case isTrue hbr =>
    split at h
    · injection h with e
      exact ⟨e.symm, hbr.1⟩
    · exact Except.noConfusion h
  case isFalse _ => exact Except.noConfusion h

/-- C1: whenever the reverse valuation solver returns an implied growth rate
`g`, substituting `g` back into the forward pricing formula (present value of
the growing cash-flow stream plus terminal value) reproduces the input
enterprise value within the convergence tolerance. -/
theorem solver_roundtrip_within_tolerance (ev fcf r gt : ℚ) (n : Nat)
    (gMin gMax : ℚ) (iters : Nat) (tol g : ℚ)
    (h : solveImpliedGrowth ev fcf r gt n gMin gMax iters tol = Except.ok g) :
    ratAbs (forwardPrice fcf r gt n g - ev) ≤ tol * ev := by
  unfold solveImpliedGrowth at h
  split at h
  · exact Except.noConfusion h
  split at h
  · exact Except.noConfusion h
  split at h
  case isTrue _ =>
    split at h
    case isTrue hres =>
      injection h with e
      rw [← e]
      exact hres
    case isFalse _ => exact Except.noConfusion h
  case isFalse _ => exact Except.noConfusion h

/-- C1 witness: for the scenario EV=300, FCF=20, r=0.08, g_t=0.02, N=10 the
solver returns some g* (namely 961/262144) and forward-pricing at g*
reproduces EV=300 within 0.1%. -/
theorem solver_roundtrip_within_tolerance_witness :
    solveImpliedGrowth 300 20 (2/25) (1/50) 10 (-1/2) 1 16 (1/1000) =
      Except.ok (961/262144) ∧
    ratAbs (forwardPrice 20 (2/25) (1/50) 10 (961/262144) - 300) ≤ (1/1000) * 300 :=
  ⟨scenario300_solve,
    solver_roundtrip_within_tolerance 300 20 (2/25) (1/50) 10 (-1/2) 1 16 (1/1000)
      (961/262144) scenario300_solve⟩

/-- C3: the solver's failure taxonomy.  With a non-positive base cash flow it
returns the failure "undefined: non-positive base cash flow"; with
`r ≤ g_t` it returns "invalid discount/terminal-growth relationship"; with no
sign change over the bracket it returns "out of bracket"; and it never returns
a numeric growth rate in the first two situations (a successful run forces
`FCF > 0` and `g_t < r`). -/
theorem solver_failure_taxonomy (ev fcf r gt : ℚ) (n : Nat) (gMin gMax : ℚ)
    (iters : Nat) (tol : ℚ) :
    (fcf ≤ 0 →
      solveImpliedGrowth ev fcf r gt n gMin gMax iters tol =
        Except.error "undefined: non-positive base cash flow") ∧
    (0 < fcf → r ≤ gt →
      solveImpliedGrowth ev fcf r gt n gMin gMax iters tol =
        Except.error "invalid discount/terminal-growth relationship") ∧
    (0 < fcf → gt < r →
      ¬ (gMin ≤ gMax ∧ forwardPrice fcf r gt n gMin ≤ ev ∧
          ev ≤ forwardPrice fcf r gt n gMax) →
      solveImpliedGrowth ev fcf r gt n gMin gMax iters tol =
        Except.error "out of bracket") ∧
    (∀ g : ℚ, solveImpliedGrowth ev fcf r gt n gMin gMax iters tol = Except.ok g →
      0 < fcf ∧ gt < r) := by
  refine ⟨fun h => ?_, fun h1 h2 => ?_, fun h1 h2 h3 => ?_, fun g h => ?_⟩
  · unfold solveImpliedGrowth
    rw [if_pos h]
  · unfold solveImpliedGrowth
    rw [if_neg (not_le.mpr h1), if_pos h2]
  · unfold solveImpliedGrowth
    rw [if_neg (not_le.mpr h1), if_neg (not_le.mpr h2), if_neg h3]
  · unfold solveImpliedGrowth at h
    split at h
    case isTrue hf => exact Except.noConfusion h
    case isFalse hf =>
      split at h
      case isTrue hr => exact Except.noConfusion h
      case isFalse hr => exact ⟨not_le.mp hf, not_le.mp hr⟩

/-- C3 witness: FCF = -5 yields the "undefined" failure, r=0.02 ≤ g_t=0.08
yields the "invalid relationship" failure, and EV=1 (below the price at the
bracket's low end) yields the "out of bracket" failure. -/
theorem solver_failure_taxonomy_witness :
    solveImpliedGrowth 300 (-5) (2/25) (1/50) 10 (-1/2) 1 16 (1/1000) =
      Except.error "undefined: non-positive base cash flow" ∧
    solveImpliedGrowth 300 20 (1/50) (2/25) 10 (-1/2) 1 16 (1/1000) =
      Except.error "invalid discount/terminal-growth relationship" ∧
    solveImpliedGrowth 1 20 (2/25) (1/50) 10 (-1/2) 1 16 (1/1000) =
      Except.error "out of bracket" :=
  ⟨(solver_failure_taxonomy 300 (-5) (2/25) (1/50) 10 (-1/2) 1 16 (1/1000)).1
      (by norm_num),
    (solver_failure_taxonomy 300 20 (1/50) (2/25) 10 (-1/2) 1 16 (1/1000)).2.1
      (by norm_num) (by norm_num),
    (solver_failure_taxonomy 1 20 (2/25) (1/50) 10 (-1/2) 1 16 (1/1000)).2.2.1
      (by norm_num) (by norm_num)
      (by
        intro hc
        have h2 := hc.2.1
        norm_num [forwardPrice, pvCashflows, ratPow] at h2)⟩

/-- C6: the solver is monotone in enterprise value — with every other input
held fixed, a larger EV yields a non-smaller implied growth rate. -/
theorem solver_monotone_in_ev (ev₁ ev₂ fcf r gt : ℚ) (n : Nat) (gMin gMax : ℚ)
    (iters : Nat) (tol g₁ g₂ : ℚ) (hev : ev₁ ≤ ev₂)
    (h₁ : solveImpliedGrowth ev₁ fcf r gt n gMin gMax iters tol = Except.ok g₁)
    (h₂ : solveImpliedGrowth ev₂ fcf r gt n gMin gMax iters tol = Except.ok g₂) :
    g₁ ≤ g₂ := by
  obtain ⟨e₁, hbr⟩ :=
    solver_ok_value ev₁ fcf r gt n gMin gMax iters tol g₁ h₁
  obtain ⟨e₂, _⟩ :=
    solver_ok_value ev₂ fcf r gt n gMin gMax iters tol g₂ h₂
  rw [e₁, e₂]
  exact runBisection_mono (forwardPrice fcf r gt n) ev₁ ev₂ gMin gMax hev hbr iters

/-- C6 witness: raising EV from 300 to 320 with all other inputs fixed moves
the implied growth rate from 961/262144 up to 3175/262144. -/
theorem solver_monotone_in_ev_witness :
    (300 : ℚ) ≤ 320 ∧ (961/262144 : ℚ) ≤ 3175/262144 :=
  ⟨by norm_num,
    solver_monotone_in_ev 300 320 20 (2/25) (1/50) 10 (-1/2) 1 16 (1/1000)
      (961/262144) (3175/262144) (by norm_num) scenario300_solve scenario320_solve⟩

/-- Modelled from the spec: does a value violate a kill-criterion threshold
under the comparison operator?  Operators are the strings carried by
`KillCriterion.operator` in `src/unnamed/part_000` ("<", ">", "=="; the
rate-of-change variants take delta inputs and are not modelled). -/
def violates (op : String) (threshold v : ℚ) : Bool :=
  if op = "<" then decide (v < threshold)
  else if op = ">" then decide (threshold < v)
  else if op = "==" then decide (v = threshold)
  else false

/-- Modelled from the spec: the consecutive-run counter over the KPI's period
history (most recent first) — how many trailing periods violate the threshold
(spec §4.4).  A non-violating period resets the count to zero. -/
def consecViolations (op : String) (threshold : ℚ) : List ℚ → Nat
  | [] => 0
  | v :: rest =>
      if violates op threshold v then consecViolations op threshold rest + 1 else 0

/-- Modelled from the spec: the default proximity band for `watch` — the
current value does not violate but sits within 20% of the distance from the
prior non-violating value to the threshold (spec §4.4; spec §9 records the
exact band as configurable, so only its existence matters to the claims). -/
def withinProximity (op : String) (threshold : ℚ) : List ℚ → Bool
  | cur :: prior :: _ =>
      !(violates op threshold cur) && !(violates op threshold prior) &&
        decide (ratAbs (threshold - cur) ≤ ratAbs (threshold - prior) / 5)
  | _ => false

/-- Modelled from the spec: the kill-criterion status state machine, computed
fresh each cycle from the full history: `breach` exactly when the
consecutive-run counter reaches the configured duration, `watch` when exactly
one of the required consecutive periods has violated or the current value is
within the proximity band, `ok` otherwise (spec §4.4; the status strings are
the ones carried by `KillCriterion.status` in `src/unnamed/part_000`). -/
def killStatus (op : String) (threshold : ℚ) (duration : Nat) (hist : List ℚ) :
    String :=
  if duration ≤ consecViolations op threshold hist then "breach"
  else if consecViolations op threshold hist = 1 ∨
      withinProximity op threshold hist = true then "watch"
  else "ok"

/-- The two most recent periods of the history both violate the threshold. -/
def twoMostRecentViolate (op : String) (threshold : ℚ) : List ℚ → Bool
  | a :: b :: _ => violates op threshold a && violates op threshold b
  | _ => false

/-- C2: with duration "2 consecutive quarters" a kill criterion breaches if
and only if the two most recent periods both violate the threshold; a
non-violating most-recent period resets the consecutive-run counter to zero;
`breach` is never entered before the counter reaches the configured duration;
and a history with counter zero can still recompute to `watch`. -/
theorem killCriterion_two_quarter_breach :
    (∀ (op : String) (threshold : ℚ) (hist : List ℚ),
      (killStatus op threshold 2 hist = "breach" ↔
        twoMostRecentViolate op threshold hist = true) ∧
      (∀ (v : ℚ) (rest : List ℚ), hist = v :: rest →
        violates op threshold v = false → consecViolations op threshold hist = 0) ∧
      (∀ duration : Nat, killStatus op threshold duration hist = "breach" →
        duration ≤ consecViolations op threshold hist)) ∧
    (∃ (op : String) (threshold : ℚ) (hist : List ℚ),
      consecViolations op threshold hist = 0 ∧
        killStatus op threshold 2 hist = "watch") := by
  constructor
  · intro op threshold hist
    have hiff : 2 ≤ consecViolations op threshold hist ↔
        twoMostRecentViolate op threshold hist = true := by
      cases hist with
      | nil => simp [consecViolations, twoMostRecentViolate]
      | cons a t =>
        cases t with
        | nil =>
          by_cases hva : violates op threshold a = true <;>
            simp [consecViolations, twoMostRecentViolate, hva]
        | cons b t2 =>
          by_cases hva : violates op threshold a = true <;>
            by_cases hvb : violates op threshold b = true <;>
              simp [consecViolations, twoMostRecentViolate, hva, hvb]
    refine ⟨?_, ?_, ?_⟩
    · unfold killStatus
      split
      case isTrue h2 => simp [hiff.mp h2]
      case isFalse h2 =>
        have hf : twoMostRecentViolate op threshold hist ≠ true := fun hc =>
          h2 (hiff.mpr hc)
        split <;> simp [hf]
    · intro v rest he hv
      subst he
      simp [consecViolations, hv]
    · intro duration hb
      unfold killStatus at hb
      split at hb
      case isTrue h => exact h
      case isFalse h =>
        split at hb <;> simp_all
  · refine ⟨"<", 50, [503/10, 52], ?_, ?_⟩
    · norm_num [consecViolations, violates]
    · norm_num [killStatus, consecViolations, withinProximity, violates, ratAbs]

/-- C2 witness: for the scenario-style history 49, 48 (both violating
"< 50") the status is `breach`, and a most-recent value of 52 resets the
consecutive counter to zero. -/
theorem killCriterion_two_quarter_breach_witness :
    killStatus "<" 50 2 [49, 48, 52] = "breach" ∧
    consecViolations "<" 50 [52, 49] = 0 :=
  ⟨((killCriterion_two_quarter_breach.1 "<" 50 [49, 48, 52]).1).mpr
      (by norm_num [twoMostRecentViolate, violates]),
    (killCriterion_two_quarter_breach.1 "<" 50 [52, 49]).2.1 52 [49] rfl
      (by norm_num [violates])⟩

/-- Modelled from the spec: one evaluation-cycle update of a kill criterion
given the KPI's period history and the optional observation for the current
period.  A missing observation leaves the prior status unchanged and flags
`no_data` (spec §4.4 failure semantics and §7 taxonomy (1), with `no_data`
the status string rendered by `COLOR_MAP` in
`src/frontend/src/components/StatusLight.tsx`); an available observation
recomputes the status from scratch from the extended history.  The Boolean in
the result is the `no_data` flag. -/
def cycleEval (op : String) (threshold : ℚ) (duration : Nat)
    (priorStatus : String) (hist : List ℚ) (obs : Option ℚ) : String × Bool :=
  match obs with
  | none => (priorStatus, true)
  | some v => (killStatus op threshold duration (v :: hist), false)

/-- C8: a KPI with no observation for the current period leaves the prior
status unchanged, is flagged `no_data`, and never transitions to `breach`
because of the missing data. -/
theorem no_observation_keeps_status (op : String) (threshold : ℚ)
    (duration : Nat) (priorStatus : String) (hist : List ℚ) (obs : Option ℚ)
    (h : obs = none) :
    cycleEval op threshold duration priorStatus hist obs = (priorStatus, true) ∧
    (priorStatus ≠ "breach" →
      (cycleEval op threshold duration priorStatus hist obs).1 ≠ "breach") := by
  subst h
  exact ⟨rfl, fun hb => hb⟩

/-- C8 witness: a criterion in `watch` with no current-period observation
stays in `watch`, is flagged `no_data`, and does not move to `breach`. -/
theorem no_observation_keeps_status_witness :
    cycleEval "<" 50 2 "watch" [49] none = ("watch", true) ∧
    ("watch" ≠ "breach" → (cycleEval "<" 50 2 "watch" [49] none).1 ≠ "breach") :=
  no_observation_keeps_status "<" 50 2 "watch" [49] none rfl

/-- Change event, translated from the `ChangeEvent` dataclass of
`src/thesis_os_revised_plan.md` (scalar fields; the citation, linkage and
raw-data payloads are not needed by the claims). -/
structure ChangeEvent where
  id : String
  ticker : String
  timestamp : Nat
  severity : String
  event_type : String
  what_changed : String
deriving DecidableEq

/-- Modelled from the spec: the severity rank used by the plan's
`detect_changes` sort key `e.severity_rank()` (the method body is not in the
snapshot); spec §4.5 orders breach > watch > info. -/
def severityRank (s : String) : Nat :=
  if s = "breach" then 2 else if s = "watch" then 1 else 0

/-- Sort of `ChangeDetector.detect_changes`
(`sorted(events, key=lambda e: e.severity_rank(), reverse=True)` in
`src/thesis_os_revised_plan.md`).  Python's `sorted` is stable, and with a
three-valued key and `reverse=True` it returns exactly the rank-2 events,
then the rank-1 events, then the rank-0 events, each group in input order. -/
def sortBySeverityDesc (es : List ChangeEvent) : List ChangeEvent :=
  es.filter (fun e => severityRank e.severity == 2) ++
  es.filter (fun e => severityRank e.severity == 1) ++
  es.filter (fun e => severityRank e.severity == 0)

/-- Modelled from the spec and the plan's `ChangeDetector.detect_changes`:
the five check stages (new filings, 13F ownership shifts, insider
transactions, KPI updates, kill-criteria moves) each contribute the events
derived from the facts that arrived since the last check, and the combined
list is sorted by severity rank descending.  The per-stage fetch bodies are
not in the snapshot, so each stage is passed as the event list it produced. -/
def detectChanges (filings ownership insider kpiUpdates killMoves :
    List ChangeEvent) : List ChangeEvent :=
  sortBySeverityDesc (filings ++ ownership ++ insider ++ kpiUpdates ++ killMoves)

/-- Modelled from the spec: a normalized external fact, carrying its arrival
time and the change event the pipeline derives from it (spec §4.5: detection
is a pure function of the new facts since the last check crossed with prior
state). -/
structure Fact where
  time : Nat
  event : ChangeEvent
deriving DecidableEq

/-- Modelled from the spec: `detect(ticker, since)` — derives events from
exactly the facts that arrived after `since`, sorted by severity. -/
def detect (log : List Fact) (since : Nat) : List ChangeEvent :=
  sortBySeverityDesc ((log.filter (fun f => since < f.time)).map Fact.event)

/-- Checkpoint state of the change detector: the time of the last
successful run. -/
structure DetectorState where
  lastCheck : Nat

/-- Modelled from the spec: one scheduled detector run — emit the events for
the facts since the last successful check and advance the checkpoint to
`now`. -/
def runCycle (log : List Fact) (st : DetectorState) (now : Nat) :
    List ChangeEvent × DetectorState :=
  (detect log st.lastCheck, ⟨now⟩)

/-- C5: change detection produces zero events whenever nothing changed since
the last successful run; in particular, after a first run at time `since`, a
second run with no facts arriving after `since` returns an empty event
list. -/
theorem detect_no_new_facts_empty (log : List Fact) (since : Nat)
    (h : ∀ f ∈ log, f.time ≤ since) :
    detect log since = [] ∧
    ∀ (s0 now' : Nat), (runCycle log (runCycle log ⟨s0⟩ since).2 now').1 = [] := by
  have hf : log.filter (fun f => since < f.time) = [] := by
    rw [List.filter_eq_nil_iff]
    intro a ha
    simpa using h a ha
  constructor
  · simp [detect, hf, sortBySeverityDesc]
  · intro s0 now'
    simp [runCycle, detect, hf, sortBySeverityDesc]

/-- C5 witness: a log whose only fact arrived at time 5 produces an event on
a first run checked from time 0, and a second run from the updated
checkpoint 5 produces no events. -/
theorem detect_no_new_facts_empty_witness :
    (runCycle [⟨5, ⟨"E1", "X", 5, "info", "filing", "10-K filed"⟩⟩] ⟨0⟩ 5).1 ≠ [] ∧
    detect [⟨5, ⟨"E1", "X", 5, "info", "filing", "10-K filed"⟩⟩] 5 = [] ∧
    ∀ (s0 now' : Nat),
      (runCycle [⟨5, ⟨"E1", "X", 5, "info", "filing", "10-K filed"⟩⟩]
        (runCycle [⟨5, ⟨"E1", "X", 5, "info", "filing", "10-K filed"⟩⟩] ⟨s0⟩ 5).2
        now').1 = [] :=
  ⟨by decide,
    (detect_no_new_facts_empty [⟨5, ⟨"E1", "X", 5, "info", "filing", "10-K filed"⟩⟩] 5
      (by decide)).1,
    (detect_no_new_facts_empty [⟨5, ⟨"E1", "X", 5, "info", "filing", "10-K filed"⟩⟩] 5
      (by decide)).2⟩

/-- Ordering required by the spec sentence for C7: severity strictly
descending between adjacent events, or same tier and recency descending. -/
def specOrdered (l : List ChangeEvent) : Prop :=
  List.Chain'
    (fun a b => severityRank b.severity < severityRank a.severity ∨
      (severityRank b.severity = severityRank a.severity ∧
        b.timestamp ≤ a.timestamp)) l

/-- C7 counterexample: two same-tier (info) events arriving oldest first are
returned in processing order by `detect_changes` — the plan sorts only by the
severity rank — so the returned list is not ordered by recency within the
severity tier. -/
theorem detect_not_recency_ordered :
    ¬ specOrdered
      (detectChanges [] [] []
        [⟨"E1", "X", 1, "info", "kpi_update", "older fact"⟩,
          ⟨"E2", "X", 2, "info", "kpi_update", "newer fact"⟩] []) := by
  intro hc
  rw [specOrdered] at hc
  have he : detectChanges [] [] []
      [⟨"E1", "X", 1, "info", "kpi_update", "older fact"⟩,
        ⟨"E2", "X", 2, "info", "kpi_update", "newer fact"⟩] [] =
      [⟨"E1", "X", 1, "info", "kpi_update", "older fact"⟩,
        ⟨"E2", "X", 2, "info", "kpi_update", "newer fact"⟩] := by
    decide
  rw [he] at hc
  rcases (List.chain'_cons.mp hc).1 with h | ⟨_, h⟩
  · exact absurd h (by decide)
  · exact absurd h (by decide)

/-- The severity rank only takes the values 0, 1, 2. -/
theorem severityRank_le_two (s : String) : severityRank s ≤ 2 := by
  unfold severityRank
  split
  · omega
  · split <;> omega

/-- A list whose events all have severity rank `k` is chained with
non-increasing ranks. -/
theorem chain'_const_rank (k : Nat) (l : List ChangeEvent)
    (h : ∀ e ∈ l, severityRank e.severity = k) :
    List.Chain' (fun a b => severityRank b.severity ≤ severityRank a.severity)
      l := by
  induction l with
  | nil => exact List.chain'_nil
  | cons a t ih =>
    cases t with
    | nil => exact List.chain'_singleton a
    | cons b t2 =>
      rw [List.chain'_cons]
      refine ⟨?_, ih ?_⟩
      · have ha := h a (List.mem_cons_self a (b :: t2))
        have hb := h b (List.mem_cons_of_mem a (List.mem_cons_self b t2))
        omega
      · intro e he
        exact h e (List.mem_cons_of_mem a he)

/-- The severity sort produces non-increasing severity ranks. -/
theorem sortBySeverityDesc_chain (l : List ChangeEvent) :
    List.Chain' (fun a b => severityRank b.severity ≤ severityRank a.severity)
      (sortBySeverityDesc l) := by
  unfold sortBySeverityDesc
  have c2 := chain'_const_rank 2 (l.filter (fun e => severityRank e.severity == 2))
    (fun e he => by simpa using List.of_mem_filter he)
  have c1 := chain'_const_rank 1 (l.filter (fun e => severityRank e.severity == 1))
    (fun e he => by simpa using List.of_mem_filter he)
  have c0 := chain'_const_rank 0 (l.filter (fun e => severityRank e.severity == 0))
    (fun e he => by simpa using List.of_mem_filter he)
  refine List.Chain'.append (List.Chain'.append c2 c1 ?_) c0 ?_
  · intro x hx y _
    have hx2 : severityRank x.severity = 2 := by
      simpa using List.of_mem_filter (List.mem_of_getLast?_eq_some hx)
    rw [hx2]
    exact severityRank_le_two y.severity
  · intro x _ y hy
    have hmem : y ∈ List.filter (fun e => severityRank e.severity == 0) l :=
      List.mem_of_mem_head? hy
    have hb := List.of_mem_filter hmem
    have hy0 : severityRank y.severity = 0 := by simpa using hb
    omega

/-- The severity sort is a permutation: no event is lost or duplicated. -/
theorem sortBySeverityDesc_perm (l : List ChangeEvent) :
    (sortBySeverityDesc l).Perm l := by
  unfold sortBySeverityDesc
  have hB : (l.filter (fun e => !(severityRank e.severity == 2))).filter
      (fun e => severityRank e.severity == 1) =
      l.filter (fun e => severityRank e.severity == 1) := by
    rw [List.filter_filter]
    refine List.filter_congr ?_
    intro e _
    by_cases h1 : severityRank e.severity = 1 <;> simp [h1]
  have hC : (l.filter (fun e => !(severityRank e.severity == 2))).filter
      (fun e => !(severityRank e.severity == 1)) =
      l.filter (fun e => severityRank e.severity == 0) := by
    rw [List.filter_filter]
    refine List.filter_congr ?_
    intro e _
    have hle := severityRank_le_two e.severity
    rcases hk : severityRank e.severity with _ | k1
    · rfl
    · rcases k1 with _ | k2
      · rfl
      · rcases k2 with _ | k3
        · rfl
        · rw [hk] at hle
          omega
  have key : (l.filter (fun e => severityRank e.severity == 1) ++
      l.filter (fun e => severityRank e.severity == 0)).Perm
      (l.filter (fun e => !(severityRank e.severity == 2))) := by
    rw [← hB, ← hC]
    exact List.filter_append_perm _ _
  have main : (l.filter (fun e => severityRank e.severity == 2) ++
      (l.filter (fun e => severityRank e.severity == 1) ++
        l.filter (fun e => severityRank e.severity == 0))).Perm l :=
    List.Perm.trans (List.Perm.append_left _ key) (List.filter_append_perm _ l)
  simpa [List.append_assoc] using main

/-- C7 amended: every event list returned by change detection is sorted by
severity with breach before watch before info, and contains exactly the
produced events; within a severity tier the events keep their processing
order (the plan's sort key is only the severity rank), not recency order. -/
theorem detect_events_severity_sorted (filings ownership insider kpiUpdates
    killMoves : List ChangeEvent) :
    List.Chain' (fun a b => severityRank b.severity ≤ severityRank a.severity)
      (detectChanges filings ownership insider kpiUpdates killMoves) ∧
    (detectChanges filings ownership insider kpiUpdates killMoves).Perm
      (filings ++ ownership ++ insider ++ kpiUpdates ++ killMoves) ∧
    detectChanges filings ownership insider kpiUpdates killMoves =
      (filings ++ ownership ++ insider ++ kpiUpdates ++ killMoves).filter
        (fun e => severityRank e.severity == 2) ++
      (filings ++ ownership ++ insider ++ kpiUpdates ++ killMoves).filter
        (fun e => severityRank e.severity == 1) ++
      (filings ++ ownership ++ insider ++ kpiUpdates ++ killMoves).filter
        (fun e => severityRank e.severity == 0) :=
  ⟨sortBySeverityDesc_chain _, sortBySeverityDesc_perm _, rfl⟩

/-- Source metadata (citation) record, translated from `SourceMeta` in
`src/unnamed/part_000` (the frontend's `types.ts`). -/
structure SourceMeta where
  source_type : String
  filer : String
  filing_date : Option String
  section' : Option String
  accession_number : Option String
  url : String
  description : String

/-- One enterprise-value component, translated from `EVComponent` in
`src/unnamed/part_000`; its `source` field is not nullable. -/
structure EVComponent where
  label : String
  value : ℚ
  computation : Option String
  source : SourceMeta

/-- Enterprise-value build, translated from `EVBuild` in
`src/unnamed/part_000`; note that `enterprise_value` is a bare number with no
citation field. -/
structure EVBuild where
  market_cap : EVComponent
  total_debt : EVComponent
  cash : EVComponent
  enterprise_value : ℚ
  summary : String

/-- Market-implied record, translated from `MarketImplied` in
`src/unnamed/part_000`; `wacc`, `terminal_growth` and `ev_used` are bare
numbers, while the cash-flow figures carry `SourceMeta` citations. -/
structure MarketImplied where
  implied_fcf_growth_10yr : Option ℚ
  wacc : ℚ
  wacc_build : String
  fcf_used : ℚ
  fcf_computation : String
  ocf_used : ℚ
  capex_used : ℚ
  fcf_source : SourceMeta
  ocf_source : SourceMeta
  capex_source : SourceMeta
  terminal_growth : ℚ
  ev_used : ℚ
  sensitivity : List (String × Option ℚ)

/-- KPI observation, translated from `KPI` in `src/unnamed/part_000`; both
`value` and `source` are independently nullable. -/
structure KPI where
  kpi_id : String
  label : String
  value : Option ℚ
  unit : String
  period : String
  prior_value : Option ℚ
  yoy_delta : Option ℚ
  qoq_value : Option ℚ
  qoq_prior : Option ℚ
  qoq_delta : Option ℚ
  qoq_period : Option String
  source : Option SourceMeta
  computation : Option String
  note : Option String

/-- Specification predicate for C4 (spec §6, §8: "every numeric field pairs
with a Citation field or is null"), stated for a KPI record: a non-null value
must come with a non-null source. -/
def kpiCited (k : KPI) : Prop := k.value.isSome = true → k.source.isSome = true

/-- C4 counterexample: the Brief record types do not guarantee the citation
invariant — this well-typed KPI has a non-null numeric value and a null
source, so not every numeric field of a brief carries a citation. -/
theorem brief_numeric_fields_not_all_cited : ¬ ∀ k : KPI, kpiCited k := by
  intro h
  have hk := h ⟨"nrr", "Net Revenue Retention", some 107, "%", "Q4 2025",
    none, none, none, none, none, none, none, none, none⟩
  simp [kpiCited] at hk

/-- C4 amended: EV components always carry a (non-nullable) source record,
but the Brief types do not enforce the invariant elsewhere — a KPI may have a
non-null value with a null source, and `EVBuild.enterprise_value`,
`MarketImplied.wacc` and `MarketImplied.terminal_growth` are bare numbers
with no citation field at all. -/
theorem brief_citation_not_enforced_by_types :
    (∀ c : EVComponent, ∃ s : SourceMeta, c.source = s) ∧
    ∃ k : KPI, k.value.isSome = true ∧ k.source = none :=
  ⟨fun c => ⟨c.source, rfl⟩,
    ⟨⟨"nrr", "Net Revenue Retention", some 107, "%", "Q4 2025",
      none, none, none, none, none, none, none, none, none⟩, rfl, rfl⟩⟩

/-- Zero-padding on the left to `d` digits, used by the decimal rendering of
`jsToFixed`. -/
def padLeftZeros (d : Nat) (s : String) : String :=
  String.mk (List.replicate (d - s.length) (Char.ofNat 48)) ++ s

/-- Floor of a non-negative rational as a natural number. -/
def ratFloorNonneg (q : ℚ) : Nat := q.num.toNat / q.den

/-- JavaScript `Number.prototype.toFixed` on exact rationals: the sign is
taken from the input, the absolute value is scaled by `10^d` and rounded to
the nearest integer with ties to the larger integer (ECMA-262), and the
digits are split around the decimal point. -/
def jsToFixed (x : ℚ) (d : Nat) : String :=
  ((if x < 0 then "-" else "") ++
    toString (ratFloorNonneg ((if x < 0 then -x else x) * ratPow 10 d + 1/2) / 10 ^ d)) ++
  (if d = 0 then "" else
    "." ++ padLeftZeros d
      (toString (ratFloorNonneg ((if x < 0 then -x else x) * ratPow 10 d + 1/2) % 10 ^ d)))

/-- `fmtPct` from `src/frontend/src/lib/format.ts`: "N/A" on null/undefined,
otherwise scale by 100, format with `toFixed` and append "%" (the
TypeScript default for `decimals` is 1; the parameter is explicit here). -/
def fmtPct (v : Option ℚ) (decimals : Nat) : String :=
  match v with
  | none => "N/A"
  | some x => jsToFixed (x * 100) decimals ++ "%"

/-- `fmtPctRaw` from `src/frontend/src/lib/format.ts`: "N/A" on
null/undefined, otherwise format the raw value with `toFixed` and append "%"
(TypeScript default for `decimals` is 2). -/
def fmtPctRaw (v : Option ℚ) (decimals : Nat) : String :=
  match v with
  | none => "N/A"
  | some x => jsToFixed x decimals ++ "%"

/-- `fmtDelta` from `src/frontend/src/lib/format.ts`: "-" on null/undefined,
otherwise two decimals with an explicit "+" on non-negative values. -/
def fmtDelta (v : Option ℚ) : String :=
  match v with
  | none => "-"
  | some x => if 0 ≤ x then "+" ++ jsToFixed x 2 else jsToFixed x 2

/-- `fmtNumber` from `src/frontend/src/lib/format.ts`: "N/A" on
null/undefined, otherwise `toFixed` (TypeScript default for `decimals`
is 2). -/
def fmtNumber (v : Option ℚ) (decimals : Nat) : String :=
  match v with
  | none => "N/A"
  | some x => jsToFixed x decimals

/-- C9: the number formatters are total on missing values with fixed
placeholders — a null input yields "N/A" from `fmtPct`, `fmtPctRaw` and
`fmtNumber` and "-" from `fmtDelta` (being Lean functions they cannot throw)
— and on present values `fmtPct` scales by 100 before formatting while
`fmtPctRaw` formats the raw value, both appending "%". -/
theorem formatters_null_placeholders :
    (∀ d : Nat, fmtPct none d = "N/A") ∧
    (∀ d : Nat, fmtPctRaw none d = "N/A") ∧
    (∀ d : Nat, fmtNumber none d = "N/A") ∧
    fmtDelta none = "-" ∧
    (∀ (x : ℚ) (d : Nat), fmtPct (some x) d = fmtPctRaw (some (x * 100)) d) ∧
    (∀ (x : ℚ) (d : Nat), fmtPctRaw (some x) d = jsToFixed x d ++ "%") :=
  ⟨fun _ => rfl, fun _ => rfl, fun _ => rfl, rfl, fun _ _ => rfl, fun _ _ => rfl⟩

/-- JavaScript `String.prototype.trim` restricted to the ASCII whitespace
characters that can occur in a ticker input field (space, tab, line feed,
carriage return). -/
def isInputWhitespace (c : Char) : Bool :=
  c = ' ' || c = '\t' || c = '\n' || c = '\r'

/-- Strip leading and trailing whitespace, as `value.trim()` does. -/
def jsTrim (s : String) : String :=
  String.mk
    (((s.data.dropWhile isInputWhitespace).reverse.dropWhile
      isInputWhitespace).reverse)

/-- Character-wise upper-casing, as `value.toUpperCase()` does on the ASCII
ticker alphabet. -/
def jsUpper (s : String) : String := String.mk (s.data.map Char.toUpper)

/-- `TickerInput.handleSubmit` from `src/unnamed/part_003`: compute
`value.trim().toUpperCase()` and call `onSubmit` with it exactly when it is
non-empty (JavaScript string truthiness).  The result is the submitted
ticker, `none` when submission is suppressed. -/
def handleSubmit (value : String) : Option String :=
  if jsUpper (jsTrim value) = "" then none else some (jsUpper (jsTrim value))

/-- Upper-casing preserves emptiness. -/
theorem jsUpper_eq_empty (s : String) : jsUpper s = "" ↔ s = "" := by
  cases s with
  | mk data => simp [jsUpper, String.ext_iff]

/-- C10: for every typed input, the submitted ticker equals the input with
surrounding whitespace trimmed and letters uppercased, and submission is
suppressed exactly when the trimmed input is empty. -/
theorem handleSubmit_trim_upper (value : String) :
    (jsTrim value = "" ∧ handleSubmit value = none) ∨
    (jsTrim value ≠ "" ∧ handleSubmit value = some (jsUpper (jsTrim value))) := by
  unfold handleSubmit
  by_cases h : jsUpper (jsTrim value) = ""
  · rw [if_pos h]
    exact Or.inl ⟨(jsUpper_eq_empty (jsTrim value)).mp h, rfl⟩
  · rw [if_neg h]
    exact Or.inr ⟨fun hc => h ((jsUpper_eq_empty (jsTrim value)).mpr hc), rfl⟩

end ThesisOS
